import Mathlib

/-!
Verification of the freelance-earnings-analyzer repository.

Shallow embedding conventions:
* A pandas DataFrame row is a `Record` carrying the eight columns used by the
  analyzer (`src/src/app/models/data_analyzer.py`).  The analyzer's
  `self.df : Optional[pd.DataFrame]` is `Option (List Record)`; `none` models
  the `df is None` ("no data loaded") state, `some rs` a loaded table with
  rows `rs` in order.
* Python/numpy floats are modelled as exact rationals (`Rat`).  Non-finite
  float results (NaN from the mean of an empty column, inf from dividing a
  numpy scalar by zero) are collapsed to `none` in an `Option Rat`.
* A Python exception is an explicit `Except` error; a function that cannot
  raise (given the `Record` schema, which always carries every column) is a
  total Lean function.
* Python's empty dict `{}` is represented by `none` / the empty association
  list, as noted at each operation.
-/

/-- One row of the freelancer table, with the columns read by
`FreelancerDataAnalyzer` (data_analyzer.py). -/
structure Record where
  paymentMethod : String    -- column "Payment_Method"
  earningsUSD : Rat         -- column "Earnings_USD"
  hourlyRate : Rat          -- column "Hourly_Rate"
  clientRegion : String     -- column "Client_Region"
  experienceLevel : String  -- column "Experience_Level"
  jobCompleted : Int        -- column "Job_Completed"
  jobSuccessRate : Rat      -- column "Job_Success_Rate"
  clientRating : Rat        -- column "Client_Rating"
deriving DecidableEq, Repr

/-- Round to the nearest integer, ties to even — Python's `round` /
numpy's rounding on the exact rational value. -/
def roundHalfEven (q : Rat) : Int :=
  let f : Int := ⌊q⌋
  let frac : Rat := q - f
  if frac < 1/2 then f
  else if 1/2 < frac then f + 1
  else if f % 2 = 0 then f else f + 1

/-- Python `round(x, 2)` / pandas `.round(2)`: round to 2 decimal places. -/
def round2 (q : Rat) : Rat :=
  (roundHalfEven (q * 100) : Rat) / 100

/-- Model of `Series.mean()`: `none` (NaN) on an empty column. -/
def seriesMean (l : List Rat) : Option Rat :=
  if l.isEmpty then none else some (l.sum / l.length)

/-- Model of `Series.median()`: sort, take the middle element, or the average of the
two middle elements for an even length; `none` (NaN) on an empty column. -/
def seriesMedian (l : List Rat) : Option Rat :=
  if l.isEmpty then none
  else
    let s := l.insertionSort (· ≤ ·)
    let n := s.length
    if n % 2 = 1 then some (s.getD (n / 2) 0)
    else some ((s.getD (n / 2 - 1) 0 + s.getD (n / 2) 0) / 2)

/-- The group keys produced by `df.groupby(col)`: the distinct values of the
column, in ascending order (pandas groups with `sort=True` by default). -/
def groupKeys (rs : List Record) (f : Record → String) : List String :=
  ((rs.map f).dedup).insertionSort (· ≤ ·)

/-- The column names of the dataset, in table order. -/
def tableColumns : List String :=
  ["Payment_Method", "Earnings_USD", "Hourly_Rate", "Client_Region",
   "Experience_Level", "Job_Completed", "Job_Success_Rate", "Client_Rating"]

/-- The inferred pandas dtype of each column under the `Record` schema
(strings are `object`, the job counter `int64`, the numeric columns
`float64`). -/
def columnDtype (c : String) : String :=
  if c = "Payment_Method" ∨ c = "Client_Region" ∨ c = "Experience_Level"
  then "object"
  else if c = "Job_Completed" then "int64"
  else "float64"

/-- Result of `get_data_info` when a table is loaded: the dict with keys
`total_records`, `columns`, `data_types`, `missing_values`, `sample_data`.
A `Record` always carries every column, so per-column missing-value counts
are 0 in the embedding. -/
structure DataInfo where
  total_records : Nat
  columns : List String
  data_types : List (String × String)
  missing_values : List (String × Nat)
  sample_data : List Record
deriving DecidableEq, Repr

/-- Embedding of `FreelancerDataAnalyzer.get_data_info`.  Here `none` is the empty dict `{}`
returned by the `df is None` guard. -/
def get_data_info (df : Option (List Record)) : Option DataInfo :=
  match df with
  | none => none
  | some rs =>
    some { total_records := rs.length
           columns := tableColumns
           data_types := tableColumns.map fun c => (c, columnDtype c)
           missing_values := tableColumns.map fun c => (c, 0)
           sample_data := rs.take 5 }

/-- Per-payment-method statistics (`get_payment_method_analysis`), after the
pandas agg + `.round(2)`.  The Option means are `none` only for an empty
group, which `groupby` never produces. -/
structure PaymentStats where
  avg_earnings : Option Rat
  median_earnings : Option Rat
  total_freelancers : Nat
  total_earnings : Rat
  avg_hourly_rate : Option Rat
  median_hourly_rate : Option Rat
deriving DecidableEq, Repr

/-- Embedding of `FreelancerDataAnalyzer.get_payment_method_analysis`.  The empty list is
the empty dict `{}` (both the `df is None` guard and a groupby over an empty
table produce it). -/
def get_payment_method_analysis (df : Option (List Record)) :
    List (String × PaymentStats) :=
  match df with
  | none => []
  | some rs =>
    (groupKeys rs (·.paymentMethod)).map fun k =>
      let g := rs.filter fun r => r.paymentMethod = k
      (k, { avg_earnings := (seriesMean (g.map (·.earningsUSD))).map round2
            median_earnings := (seriesMedian (g.map (·.earningsUSD))).map round2
            total_freelancers := g.length
            total_earnings := round2 (g.map (·.earningsUSD)).sum
            avg_hourly_rate := (seriesMean (g.map (·.hourlyRate))).map round2
            median_hourly_rate :=
              (seriesMedian (g.map (·.hourlyRate))).map round2 })

/-- Per-region statistics (`get_region_analysis`). -/
structure RegionStats where
  avg_earnings : Option Rat
  median_earnings : Option Rat
  total_freelancers : Nat
  total_earnings : Rat
  avg_hourly_rate : Option Rat
  avg_success_rate : Option Rat
  avg_client_rating : Option Rat
deriving DecidableEq, Repr

/-- Embedding of `FreelancerDataAnalyzer.get_region_analysis`. -/
def get_region_analysis (df : Option (List Record)) :
    List (String × RegionStats) :=
  match df with
  | none => []
  | some rs =>
    (groupKeys rs (·.clientRegion)).map fun k =>
      let g := rs.filter fun r => r.clientRegion = k
      (k, { avg_earnings := (seriesMean (g.map (·.earningsUSD))).map round2
            median_earnings := (seriesMedian (g.map (·.earningsUSD))).map round2
            total_freelancers := g.length
            total_earnings := round2 (g.map (·.earningsUSD)).sum
            avg_hourly_rate := (seriesMean (g.map (·.hourlyRate))).map round2
            avg_success_rate := (seriesMean (g.map (·.jobSuccessRate))).map round2
            avg_client_rating := (seriesMean (g.map (·.clientRating))).map round2 })

/-- A Python exception raised inside an analyzer operation. -/
inductive PyErr where
  | zeroDivision
deriving DecidableEq, Repr

/-- Python `str(e)` for the exceptions modelled here. -/
def PyErr.message : PyErr → String
  | .zeroDivision => "division by zero"

/-- Result of `get_expert_analysis` when a table is loaded and the division
succeeds. -/
structure ExpertAnalysis where
  total_experts : Nat
  experts_under_100_projects : Nat
  percentage : Rat
  avg_earnings_under_100 : Option Rat
  avg_earnings_all_experts : Option Rat
deriving DecidableEq, Repr

/-- Embedding of `FreelancerDataAnalyzer.get_expert_analysis`.  Here `.ok none` is the empty
dict from the `df is None` guard; `.error .zeroDivision` models the
unguarded `len(experts_under_100) / len(experts)` raising when the table has
no record with experience level `"Expert"`. -/
def get_expert_analysis (df : Option (List Record)) :
    Except PyErr (Option ExpertAnalysis) :=
  match df with
  | none => .ok none
  | some rs =>
    let experts := rs.filter fun r => r.experienceLevel = "Expert"
    let experts_under_100 := experts.filter fun r => r.jobCompleted < 100
    if experts.length = 0 then .error .zeroDivision
    else
      .ok (some
        { total_experts := experts.length
          experts_under_100_projects := experts_under_100.length
          percentage :=
            round2 (((experts_under_100.length : Rat) / experts.length) * 100)
          avg_earnings_under_100 :=
            seriesMean (experts_under_100.map (·.earningsUSD))
          avg_earnings_all_experts := seriesMean (experts.map (·.earningsUSD)) })

/-- Statistics of one partition in `get_crypto_vs_other_analysis`
(`crypto_stats` / `other_stats`); the means are unrounded. -/
structure PartitionStats where
  count : Nat
  avg_earnings : Option Rat
  median_earnings : Option Rat
  avg_hourly_rate : Option Rat
deriving DecidableEq, Repr

/-- The `difference` block of `get_crypto_vs_other_analysis`.  Arithmetic on
numpy scalars propagates NaN and turns division by zero into a non-finite
value rather than raising, hence `Option Rat` with `none` for non-finite. -/
structure CryptoDifference where
  earnings_difference : Option Rat
  hourly_rate_difference : Option Rat
  percentage_difference : Option Rat
deriving DecidableEq, Repr

/-- Result of `get_crypto_vs_other_analysis` when a table is loaded. -/
structure CryptoVsOther where
  crypto_stats : PartitionStats
  other_stats : PartitionStats
  difference : CryptoDifference
deriving DecidableEq, Repr

/-- Subtraction on possibly-non-finite numpy scalars. -/
def optSub (a b : Option Rat) : Option Rat :=
  match a, b with
  | some x, some y => some (x - y)
  | _, _ => none

/-- Division on possibly-non-finite numpy scalars: dividing by zero yields a
non-finite value (numpy emits inf/nan with a warning, it does not raise). -/
def optDiv (a b : Option Rat) : Option Rat :=
  match a, b with
  | some x, some y => if y = 0 then none else some (x / y)
  | _, _ => none

/-- Embedding of `FreelancerDataAnalyzer.get_crypto_vs_other_analysis`.  Here `none` is the
empty dict from the `df is None` guard. -/
def get_crypto_vs_other_analysis (df : Option (List Record)) :
    Option CryptoVsOther :=
  match df with
  | none => none
  | some rs =>
    let crypto_users := rs.filter fun r => r.paymentMethod = "Crypto"
    let other_users := rs.filter fun r => ¬ r.paymentMethod = "Crypto"
    let cryptoMean := seriesMean (crypto_users.map (·.earningsUSD))
    let otherMean := seriesMean (other_users.map (·.earningsUSD))
    let cryptoRate := seriesMean (crypto_users.map (·.hourlyRate))
    let otherRate := seriesMean (other_users.map (·.hourlyRate))
    some
      { crypto_stats :=
          { count := crypto_users.length
            avg_earnings := cryptoMean
            median_earnings := seriesMedian (crypto_users.map (·.earningsUSD))
            avg_hourly_rate := cryptoRate }
        other_stats :=
          { count := other_users.length
            avg_earnings := otherMean
            median_earnings := seriesMedian (other_users.map (·.earningsUSD))
            avg_hourly_rate := otherRate }
        difference :=
          { earnings_difference := optSub cryptoMean otherMean
            hourly_rate_difference := optSub cryptoRate otherRate
            percentage_difference :=
              (optDiv (optSub cryptoMean otherMean) otherMean).map
                fun q => round2 (q * 100) } }

/-- One entry of `SessionMemory.history`: the dict
`{"question": q, "answer": a}`. -/
structure HistoryEntry where
  question : String
  answer : String
deriving DecidableEq, Repr

namespace SessionMemory

/-- Embedding of `SessionMemory.add` (session_memory.py): append to `self.history`. -/
def add (history : List HistoryEntry) (q a : String) : List HistoryEntry :=
  history ++ [{ question := q, answer := a }]

/-- Embedding of `SessionMemory.get_history`: `self.history[-n:]`.  Python's negative
slice takes the last `n` elements when `n ≥ 1`; for `n = 0` the slice is
`history[0:]`, the whole list. -/
def get_history (history : List HistoryEntry) (n : Nat := 5) :
    List HistoryEntry :=
  if n = 0 then history else history.drop (history.length - n)

end SessionMemory

/-- A Python object as produced by the analyzer operations and consumed by
`json.dumps` (analysis_chain.py): plain values, containers, numpy scalar
wrappers (`np.integer`, `np.floating`, `np.bool_`, `np.ndarray`), pandas
dtype objects (serialized via the `str(obj)` fallback of `NpEncoder`) and
`pd.NA`.  Float payloads are `Option Rat`, `none` for a non-finite value. -/
inductive PyObj where
  | pyNone
  | pyInt (n : Int)
  | pyFloat (q : Option Rat)
  | pyBool (b : Bool)
  | pyStr (s : String)
  | pyList (xs : List PyObj)
  | pyDict (kvs : List (String × PyObj))
  | npInt (n : Int)
  | npFloat (q : Option Rat)
  | npBool (b : Bool)
  | npArray (xs : List PyObj)
  | npDtype (s : String)
  | pdNA

/-- A JSON value, the output of `json.dumps` (`jNum none` stands for the
non-standard `NaN` / `Infinity` literals the encoder emits for non-finite
floats). -/
inductive JVal where
  | jNull
  | jBool (b : Bool)
  | jInt (n : Int)
  | jNum (q : Option Rat)
  | jStr (s : String)
  | jArr (xs : List JVal)
  | jObj (kvs : List (String × JVal))

mutual

/-- Model of `json.dumps(obj, cls=NpEncoder)`: containers and plain scalars are
serialized natively; any other object goes through `NpEncoder.default`,
which converts `np.integer → int`, `np.floating → float`,
`np.ndarray → tolist`, `np.bool_ → bool`, `pd.NA → None`, and falls back to
`str(obj)` for anything else (e.g. pandas dtype objects). -/
def serializeNp : PyObj → JVal
  | .pyNone => .jNull
  | .pyInt n => .jInt n
  | .pyFloat q => .jNum q
  | .pyBool b => .jBool b
  | .pyStr s => .jStr s
  | .pyList xs => .jArr (serializeNpList xs)
  | .pyDict kvs => .jObj (serializeNpKVs kvs)
  | .npInt n => .jInt n
  | .npFloat q => .jNum q
  | .npBool b => .jBool b
  | .npArray xs => .jArr (serializeNpList xs)
  | .npDtype s => .jStr s
  | .pdNA => .jNull

def serializeNpList : List PyObj → List JVal
  | [] => []
  | x :: xs => serializeNp x :: serializeNpList xs

def serializeNpKVs : List (String × PyObj) → List (String × JVal)
  | [] => []
  | (k, v) :: kvs => (k, serializeNp v) :: serializeNpKVs kvs

end

mutual

/-- Model of `json.dumps(obj)` with the stock encoder: fails (`TypeError`, i.e.
`none`) on numpy scalars, numpy arrays, dtype objects and `pd.NA`. -/
def serializeStd : PyObj → Option JVal
  | .pyNone => some .jNull
  | .pyInt n => some (.jInt n)
  | .pyFloat q => some (.jNum q)
  | .pyBool b => some (.jBool b)
  | .pyStr s => some (.jStr s)
  | .pyList xs => (serializeStdList xs).map .jArr
  | .pyDict kvs => (serializeStdKVs kvs).map .jObj
  | .npInt _ => none
  | .npFloat _ => none
  | .npBool _ => none
  | .npArray _ => none
  | .npDtype _ => none
  | .pdNA => none

def serializeStdList : List PyObj → Option (List JVal)
  | [] => some []
  | x :: xs =>
    match serializeStd x, serializeStdList xs with
    | some v, some vs => some (v :: vs)
    | _, _ => none

def serializeStdKVs : List (String × PyObj) → Option (List (String × JVal))
  | [] => some []
  | (k, v) :: kvs =>
    match serializeStd v, serializeStdKVs kvs with
    | some w, some ws => some ((k, w) :: ws)
    | _, _ => none

end

mutual

/-- The normalization the spec requires of serialization: replace every
library-specific wrapper by its plain counterpart (numpy integers, floats,
booleans become plain ones, numpy arrays become lists, dtype objects their
string form, `pd.NA` becomes `None`). -/
def stripNp : PyObj → PyObj
  | .pyNone => .pyNone
  | .pyInt n => .pyInt n
  | .pyFloat q => .pyFloat q
  | .pyBool b => .pyBool b
  | .pyStr s => .pyStr s
  | .pyList xs => .pyList (stripNpList xs)
  | .pyDict kvs => .pyDict (stripNpKVs kvs)
  | .npInt n => .pyInt n
  | .npFloat q => .pyFloat q
  | .npBool b => .pyBool b
  | .npArray xs => .pyList (stripNpList xs)
  | .npDtype s => .pyStr s
  | .pdNA => .pyNone

def stripNpList : List PyObj → List PyObj
  | [] => []
  | x :: xs => stripNp x :: stripNpList xs

def stripNpKVs : List (String × PyObj) → List (String × PyObj)
  | [] => []
  | (k, v) :: kvs => (k, stripNp v) :: stripNpKVs kvs

end

mutual

/-- Returns `true` iff the object contains no library-specific wrapper type. -/
def isPlain : PyObj → Bool
  | .pyNone => true
  | .pyInt _ => true
  | .pyFloat _ => true
  | .pyBool _ => true
  | .pyStr _ => true
  | .pyList xs => isPlainList xs
  | .pyDict kvs => isPlainKVs kvs
  | .npInt _ => false
  | .npFloat _ => false
  | .npBool _ => false
  | .npArray _ => false
  | .npDtype _ => false
  | .pdNA => false

def isPlainList : List PyObj → Bool
  | [] => true
  | x :: xs => isPlain x && isPlainList xs

def isPlainKVs : List (String × PyObj) → Bool
  | [] => true
  | (_, v) :: kvs => isPlain v && isPlainKVs kvs

end

/-- A row as it appears in `df.head().to_dict("records")`: a dict from
column name to cell value (numeric cells as numpy scalars, which
`NpEncoder` normalizes either way). -/
def recordToPyObj (r : Record) : PyObj :=
  .pyDict
    [("Payment_Method", .pyStr r.paymentMethod),
     ("Earnings_USD", .npFloat (some r.earningsUSD)),
     ("Hourly_Rate", .npFloat (some r.hourlyRate)),
     ("Client_Region", .pyStr r.clientRegion),
     ("Experience_Level", .pyStr r.experienceLevel),
     ("Job_Completed", .npInt r.jobCompleted),
     ("Job_Success_Rate", .npFloat (some r.jobSuccessRate)),
     ("Client_Rating", .npFloat (some r.clientRating))]

/-- The `get_data_info` dict as a Python object: `dict(self.df.dtypes)`
holds pandas dtype objects and `dict(self.df.isnull().sum())` numpy
integers. -/
def dataInfoToPyObj (i : Option DataInfo) : PyObj :=
  match i with
  | none => .pyDict []
  | some info =>
    .pyDict
      [("total_records", .pyInt info.total_records),
       ("columns", .pyList (info.columns.map .pyStr)),
       ("data_types", .pyDict (info.data_types.map fun kv => (kv.1, .npDtype kv.2))),
       ("missing_values", .pyDict (info.missing_values.map fun kv => (kv.1, .npInt kv.2))),
       ("sample_data", .pyList (info.sample_data.map recordToPyObj))]

/-- One group's dict in the `get_payment_method_analysis` result: the values
come from `payment_stats.loc[...]`, i.e. numpy scalars. -/
def paymentStatsToPyObj (s : PaymentStats) : PyObj :=
  .pyDict
    [("avg_earnings", .npFloat s.avg_earnings),
     ("median_earnings", .npFloat s.median_earnings),
     ("total_freelancers", .npInt s.total_freelancers),
     ("total_earnings", .npFloat (some s.total_earnings)),
     ("avg_hourly_rate", .npFloat s.avg_hourly_rate),
     ("median_hourly_rate", .npFloat s.median_hourly_rate)]

/-- One group's dict in the `get_region_analysis` result. -/
def regionStatsToPyObj (s : RegionStats) : PyObj :=
  .pyDict
    [("avg_earnings", .npFloat s.avg_earnings),
     ("median_earnings", .npFloat s.median_earnings),
     ("total_freelancers", .npInt s.total_freelancers),
     ("total_earnings", .npFloat (some s.total_earnings)),
     ("avg_hourly_rate", .npFloat s.avg_hourly_rate),
     ("avg_success_rate", .npFloat s.avg_success_rate),
     ("avg_client_rating", .npFloat s.avg_client_rating)]

/-- The `get_expert_analysis` dict: the `len()` counts are plain ints and
the `round(..., 2)` percentage a plain float; the `Series.mean()` values are
numpy floats. -/
def expertToPyObj (e : Option ExpertAnalysis) : PyObj :=
  match e with
  | none => .pyDict []
  | some r =>
    .pyDict
      [("total_experts", .pyInt r.total_experts),
       ("experts_under_100_projects", .pyInt r.experts_under_100_projects),
       ("percentage", .pyFloat (some r.percentage)),
       ("avg_earnings_under_100", .npFloat r.avg_earnings_under_100),
       ("avg_earnings_all_experts", .npFloat r.avg_earnings_all_experts)]

/-- The `get_crypto_vs_other_analysis` nested dict. -/
def cryptoToPyObj (c : Option CryptoVsOther) : PyObj :=
  match c with
  | none => .pyDict []
  | some r =>
    .pyDict
      [("crypto_stats", .pyDict
         [("count", .pyInt r.crypto_stats.count),
          ("avg_earnings", .npFloat r.crypto_stats.avg_earnings),
          ("median_earnings", .npFloat r.crypto_stats.median_earnings),
          ("avg_hourly_rate", .npFloat r.crypto_stats.avg_hourly_rate)]),
       ("other_stats", .pyDict
         [("count", .pyInt r.other_stats.count),
          ("avg_earnings", .npFloat r.other_stats.avg_earnings),
          ("median_earnings", .npFloat r.other_stats.median_earnings),
          ("avg_hourly_rate", .npFloat r.other_stats.avg_hourly_rate)]),
       ("difference", .pyDict
         [("earnings_difference", .npFloat r.difference.earnings_difference),
          ("hourly_rate_difference", .npFloat r.difference.hourly_rate_difference),
          ("percentage_difference", .npFloat r.difference.percentage_difference)])]

/-- The dict returned by `FreelancerAnalysisChain._get_analysis_data`: one
of the five analyzer results, the fallback payload for an unrecognized
label, or the `{"error": ...}` payload built in its `except` clause. -/
inductive AnalysisData where
  | payment_method (m : List (String × PaymentStats))
  | region (m : List (String × RegionStats))
  | expert (r : Option ExpertAnalysis)
  | crypto_comparison (r : Option CryptoVsOther)
  | general_info (r : Option DataInfo)
  | fallback (message : String) (general_stats : Option DataInfo)
  | errorPayload (message : String)
deriving DecidableEq, Repr

/-- Embedding of `FreelancerAnalysisChain._get_analysis_data` (analysis_chain.py).  The
whole dispatch is wrapped in `try/except Exception`; under the `Record`
schema the only fallible call is `get_expert_analysis` (the zero-expert
division), and its exception becomes the `{"error": ...}` payload. -/
def get_analysis_data (df : Option (List Record))
    (analysis_type question : String) : AnalysisData :=
  if analysis_type = "payment_method" then
    .payment_method (get_payment_method_analysis df)
  else if analysis_type = "region" then
    .region (get_region_analysis df)
  else if analysis_type = "expert" then
    match get_expert_analysis df with
    | .ok r => .expert r
    | .error e => .errorPayload ("Ошибка при анализе данных: " ++ e.message)
  else if analysis_type = "crypto_comparison" then
    .crypto_comparison (get_crypto_vs_other_analysis df)
  else if analysis_type = "general_info" then
    .general_info (get_data_info df)
  else
    .fallback "Для данного типа вопроса требуется дополнительный анализ"
      (get_data_info df)

/-- The analysis dict as the Python object handed to `json.dumps`. -/
def analysisDataToPyObj : AnalysisData → PyObj
  | .payment_method m =>
    .pyDict (m.map fun kv => (kv.1, paymentStatsToPyObj kv.2))
  | .region m => .pyDict (m.map fun kv => (kv.1, regionStatsToPyObj kv.2))
  | .expert r => expertToPyObj r
  | .crypto_comparison r => cryptoToPyObj r
  | .general_info r => dataInfoToPyObj r
  | .fallback msg gs =>
    .pyDict [("message", .pyStr msg), ("general_stats", dataInfoToPyObj gs)]
  | .errorPayload msg => .pyDict [("error", .pyStr msg)]

/-- The two external LLM capabilities used by `FreelancerAnalysisChain`:
`classification_chain.invoke({"question": ...})` and
`interpretation_chain.invoke(prompt_vars)`.  Each is an opaque text
capability that may raise (`.error msg` = an exception with message `msg`).
The interpreter receives the question, the serialized analysis results
(`json.dumps(..., cls=NpEncoder)`, passed as the JSON value; the exact
indent/whitespace of the dump is irrelevant to the claims), and the optional
`context` prompt variable. -/
structure ChainOracles where
  classify : String → Except String String
  interpret : String → JVal → Option String → Except String String

/-- The chat history block `"\n".join("Q: ...\nA: ..." for h in history)`. -/
def historyContext (history : List HistoryEntry) : String :=
  String.intercalate "\n"
    (history.map fun h => "Q: " ++ h.question ++ "\nA: " ++ h.answer)

/-- Embedding of `FreelancerAnalysisChain.analyze_question`: the whole body runs in a
`try`; any exception is turned into the fixed Russian error string, and only
a fully successful run appends to the session memory.  Returns the answer
string and the resulting memory state. -/
def analyze_question (o : ChainOracles) (df : Option (List Record))
    (memory : List HistoryEntry) (question : String) :
    String × List HistoryEntry :=
  match o.classify question with
  | .error e => ("Произошла ошибка при обработке вопроса: " ++ e, memory)
  | .ok raw =>
    let analysis_type := raw.trim
    let analysis_results := get_analysis_data df analysis_type question
    let history := SessionMemory.get_history memory
    let context := if history.isEmpty then "" else historyContext history
    let formatted_results := serializeNp (analysisDataToPyObj analysis_results)
    match o.interpret question formatted_results
        (if context = "" then none else some context) with
    | .error e => ("Произошла ошибка при обработке вопроса: " ++ e, memory)
    | .ok response => (response, SessionMemory.add memory question response)

/-- An error escaping `FreelancerCSVLoader.load`. -/
inductive LoadErr where
  | dataFileNotFound (msg : String)
  | parseFailure (msg : String)
deriving DecidableEq, Repr

/-- The filesystem as `load` observes it: whether a path resolves to an
existing file (`Path.exists`), and what `pd.read_csv` does on the file at
that path (`.ok` rows for a well-formed file, `.error` for a malformed
one). -/
structure FileSystem where
  pathExists : String → Bool
  readCSV : String → Except String (List Record)

/-- Embedding of `FreelancerCSVLoader.load` (csv_loader.py): raise `DataFileNotFound`
when the path does not exist, otherwise delegate to `pd.read_csv`. -/
def FreelancerCSVLoader.load (fs : FileSystem) (path : String) :
    Except LoadErr (List Record) :=
  if fs.pathExists path = false then
    .error (.dataFileNotFound ("Файл не найден: " ++ path))
  else
    match fs.readCSV path with
    | .ok rows => .ok rows
    | .error e => .error (.parseFailure e)

/-- The four-row table used by the repository's own tests
(`tests/test_data_analyzer.py`, `MOCK_DATA`). -/
def mockRecords : List Record :=
  [{ paymentMethod := "Crypto", earningsUSD := 1000, hourlyRate := 50,
     clientRegion := "EU", experienceLevel := "Expert", jobCompleted := 120,
     jobSuccessRate := 98, clientRating := 49/10 },
   { paymentMethod := "Bank", earningsUSD := 800, hourlyRate := 40,
     clientRegion := "US", experienceLevel := "Expert", jobCompleted := 80,
     jobSuccessRate := 95, clientRating := 48/10 },
   { paymentMethod := "Crypto", earningsUSD := 1200, hourlyRate := 60,
     clientRegion := "EU", experienceLevel := "Intermediate",
     jobCompleted := 50, jobSuccessRate := 90, clientRating := 47/10 },
   { paymentMethod := "PayPal", earningsUSD := 700, hourlyRate := 35,
     clientRegion := "Asia", experienceLevel := "Expert", jobCompleted := 30,
     jobSuccessRate := 85, clientRating := 46/10 }]

/-- A one-row table with no `"Expert"` record. -/
def beginnerRecord : Record :=
  { paymentMethod := "Crypto", earningsUSD := 500, hourlyRate := 25,
    clientRegion := "EU", experienceLevel := "Beginner", jobCompleted := 10,
    jobSuccessRate := 80, clientRating := 4 }

/-- Ten history entries Q0/A0 .. Q9/A9 (spec scenario 4). -/
def demoHistory : List HistoryEntry :=
  (List.range 10).map fun i =>
    { question := "Q" ++ toString i, answer := "A" ++ toString i }

/-- Decidable equality for `Except`, used to evaluate the embedded
operations on concrete inputs. -/
instance exceptDecEq {ε α : Type} [DecidableEq ε] [DecidableEq α] :
    DecidableEq (Except ε α) := fun a b =>
  match a, b with
  | .error e, .error f =>
    if h : e = f then .isTrue (by rw [h])
    else .isFalse (by intro hh; injection hh; exact h (by assumption))
  | .error _, .ok _ => .isFalse (by intro hh; exact Except.noConfusion hh)
  | .ok _, .error _ => .isFalse (by intro hh; exact Except.noConfusion hh)
  | .ok x, .ok y =>
    if h : x = y then .isTrue (by rw [h])
    else .isFalse (by intro hh; injection hh; exact h (by assumption))

/-! ## Helper lemmas -/

theorem filter_length_eq_count (rs : List Record) (f : Record → String)
    (k : String) :
    (rs.filter fun r => f r = k).length = (rs.map f).count k := by
  induction rs with
  | nil => rfl
  | cons r rs ih =>
    by_cases h : f r = k <;>
      simp [List.filter_cons, List.count_cons, h, ih]

theorem except_match_shape (pre q : String) (mem : List HistoryEntry)
    (E : Except String String) :
    (∃ e, (match E with
           | Except.error e => (pre ++ e, mem)
           | Except.ok r => (r, SessionMemory.add mem q r)) = (pre ++ e, mem)) ∨
    (∃ ans, (match E with
           | Except.error e => (pre ++ e, mem)
           | Except.ok r => (r, SessionMemory.add mem q r)) =
        (ans, SessionMemory.add mem q ans)) := by
  cases E with
  | error e => exact Or.inl ⟨e, rfl⟩
  | ok r => exact Or.inr ⟨r, rfl⟩

mutual

theorem serializeStd_stripNp : ∀ o : PyObj,
    serializeStd (stripNp o) = some (serializeNp o)
  | .pyNone => rfl
  | .pyInt _ => rfl
  | .pyFloat _ => rfl
  | .pyBool _ => rfl
  | .pyStr _ => rfl
  | .pyList xs => by
    simp [stripNp, serializeNp, serializeStd, serializeStdList_stripNpList xs]
  | .pyDict kvs => by
    simp [stripNp, serializeNp, serializeStd, serializeStdKVs_stripNpKVs kvs]
  | .npInt _ => rfl
  | .npFloat _ => rfl
  | .npBool _ => rfl
  | .npArray xs => by
    simp [stripNp, serializeNp, serializeStd, serializeStdList_stripNpList xs]
  | .npDtype _ => rfl
  | .pdNA => rfl

theorem serializeStdList_stripNpList : ∀ xs : List PyObj,
    serializeStdList (stripNpList xs) = some (serializeNpList xs)
  | [] => rfl
  | x :: xs => by
    simp [stripNpList, serializeStdList, serializeNpList,
      serializeStd_stripNp x, serializeStdList_stripNpList xs]

theorem serializeStdKVs_stripNpKVs : ∀ kvs : List (String × PyObj),
    serializeStdKVs (stripNpKVs kvs) = some (serializeNpKVs kvs)
  | [] => rfl
  | (k, v) :: kvs => by
    simp [stripNpKVs, serializeStdKVs, serializeNpKVs,
      serializeStd_stripNp v, serializeStdKVs_stripNpKVs kvs]

end

mutual

theorem isPlain_stripNp : ∀ o : PyObj, isPlain (stripNp o) = true
  | .pyNone => rfl
  | .pyInt _ => rfl
  | .pyFloat _ => rfl
  | .pyBool _ => rfl
  | .pyStr _ => rfl
  | .pyList xs => by simp [stripNp, isPlain, isPlainList_stripNpList xs]
  | .pyDict kvs => by simp [stripNp, isPlain, isPlainKVs_stripNpKVs kvs]
  | .npInt _ => rfl
  | .npFloat _ => rfl
  | .npBool _ => rfl
  | .npArray xs => by simp [stripNp, isPlain, isPlainList_stripNpList xs]
  | .npDtype _ => rfl
  | .pdNA => rfl

theorem isPlainList_stripNpList : ∀ xs : List PyObj,
    isPlainList (stripNpList xs) = true
  | [] => rfl
  | x :: xs => by
    simp [stripNpList, isPlainList, isPlain_stripNp x,
      isPlainList_stripNpList xs]

theorem isPlainKVs_stripNpKVs : ∀ kvs : List (String × PyObj),
    isPlainKVs (stripNpKVs kvs) = true
  | [] => rfl
  | (k, v) :: kvs => by
    simp [stripNpKVs, isPlainKVs, isPlain_stripNp v, isPlainKVs_stripNpKVs kvs]

end

/-! ## Claims -/

/-- C1 (counterexample): on a loaded table with zero records the claim
fails — `get_expert_analysis` raises `ZeroDivisionError` instead of
returning an empty mapping, and `get_data_info` returns a non-empty
mapping. -/
theorem C1_counterexample :
    get_expert_analysis (some ([] : List Record)) =
      Except.error PyErr.zeroDivision ∧
    get_data_info (some ([] : List Record)) ≠ none := by
  exact ⟨rfl, by decide⟩

/-- C1 (amended): each of the five operations returns an empty mapping
without raising when no table is loaded (the `df is None` guard).  On a
loaded table with zero records, the two grouping operations return empty
mappings; `get_data_info` and `get_crypto_vs_other_analysis` return their
usual non-empty mappings without raising; `get_expert_analysis` raises
`ZeroDivisionError`. -/
theorem C1_empty_table_behavior :
    get_data_info none = none ∧
    get_payment_method_analysis none = [] ∧
    get_region_analysis none = [] ∧
    get_expert_analysis none = .ok none ∧
    get_crypto_vs_other_analysis none = none ∧
    get_payment_method_analysis (some []) = [] ∧
    get_region_analysis (some []) = [] ∧
    get_data_info (some []) =
      some { total_records := 0
             columns := tableColumns
             data_types := tableColumns.map fun c => (c, columnDtype c)
             missing_values := tableColumns.map fun c => (c, 0)
             sample_data := [] } ∧
    get_crypto_vs_other_analysis (some []) =
      some { crypto_stats :=
               { count := 0, avg_earnings := none, median_earnings := none,
                 avg_hourly_rate := none }
             other_stats :=
               { count := 0, avg_earnings := none, median_earnings := none,
                 avg_hourly_rate := none }
             difference :=
               { earnings_difference := none, hourly_rate_difference := none,
                 percentage_difference := none } } ∧
    get_expert_analysis (some []) = .error .zeroDivision := by
  refine ⟨rfl, rfl, rfl, rfl, rfl, rfl, rfl, rfl, rfl, rfl⟩

/-- C2: `analyze_question` always returns an answer string and never
raises: either the interpretation succeeded and its answer is returned (and
recorded in the session memory), or some stage raised and the result is the
exception's message behind the fixed Russian prefix
"Произошла ошибка при обработке вопроса: " with the memory unchanged. -/
theorem C2_analyze_question_never_raises (o : ChainOracles)
    (df : Option (List Record)) (memory : List HistoryEntry)
    (question : String) :
    (∃ e, analyze_question o df memory question =
        ("Произошла ошибка при обработке вопроса: " ++ e, memory)) ∨
    (∃ ans, analyze_question o df memory question =
        (ans, SessionMemory.add memory question ans)) := by
  simp only [analyze_question]
  cases hc : o.classify question with
  | error e => exact Or.inl ⟨e, rfl⟩
  | ok raw => exact except_match_shape _ _ _ _

/-- C3 (counterexample): `get_history(0)` on a ten-entry history returns the
whole history (Python's `history[-0:]` is `history[0:]`), not an empty
sequence, so it also returns more than `n` entries. -/
theorem C3_counterexample :
    SessionMemory.get_history demoHistory 0 = demoHistory ∧
    (SessionMemory.get_history demoHistory 0).length = 10 := by
  exact ⟨rfl, by decide⟩

/-- C3 (amended): for every history state and every `n ≥ 1`,
`SessionMemory.get_history n` returns the last `min n total` appended
entries in chronological order (a suffix of the history), never more than
`n` and never more than the total, and all of them when fewer than `n`
exist; if the history is empty it returns an empty sequence.  For `n = 0`,
however, the negative-slice idiom returns the entire history, not an empty
sequence. -/
theorem C3_get_history_window (hist : List HistoryEntry) (n : Nat) :
    (1 ≤ n →
      (SessionMemory.get_history hist n).length = min n hist.length ∧
      List.IsSuffix (SessionMemory.get_history hist n) hist ∧
      (hist.length ≤ n → SessionMemory.get_history hist n = hist)) ∧
    (n = 0 → SessionMemory.get_history hist n = hist) ∧
    (hist = [] → SessionMemory.get_history hist n = []) := by
  refine ⟨fun hn => ?_, fun h0 => ?_, fun hnil => ?_⟩
  · have hne : n ≠ 0 := by omega
    simp only [SessionMemory.get_history, if_neg hne]
    refine ⟨by rw [List.length_drop]; omega, List.drop_suffix _ _, fun hle => ?_⟩
    rw [Nat.sub_eq_zero_of_le hle, List.drop_zero]
  · simp [SessionMemory.get_history, h0]
  · simp [SessionMemory.get_history, hnil]

/-- C3 (witness): on the ten-entry history, `get_history 5` returns
`min 5 10 = 5` entries, and `get_history 0` returns the whole history. -/
theorem C3_get_history_window_witness :
    (SessionMemory.get_history demoHistory 5).length = min 5 demoHistory.length ∧
    SessionMemory.get_history demoHistory 0 = demoHistory :=
  ⟨((C3_get_history_window demoHistory 5).1 (by decide)).1,
   (C3_get_history_window demoHistory 0).2.1 rfl⟩

/-- C4: whenever `get_expert_analysis` produces a structured result,
`experts_under_100_projects ≤ total_experts`, and for a positive expert
count the percentage equals `round(100 * experts_under_100_projects /
total_experts, 2)` (exact rational arithmetic; the code computes
`round((u / t) * 100, 2)`, which is the same rational). -/
theorem C4_expert_analysis_bounds (df : Option (List Record))
    (r : ExpertAnalysis) (h : get_expert_analysis df = .ok (some r)) :
    r.experts_under_100_projects ≤ r.total_experts ∧
      (0 < r.total_experts →
        r.percentage =
          round2 (100 * (r.experts_under_100_projects : Rat) /
            (r.total_experts : Rat))) := by
  cases df with
  | none => simp [get_expert_analysis] at h
  | some rs =>
    simp only [get_expert_analysis] at h
    split at h
    · exact absurd h (by simp)
    · rw [Except.ok.injEq, Option.some.injEq] at h
      subst h
      refine ⟨List.length_filter_le _ _, fun _ => ?_⟩
      ring_nf

/-- C4 (witness): on the four-row test table there are 3 experts, 2 of them
under 100 completed jobs, and the percentage is 66.67. -/
theorem C4_expert_analysis_bounds_witness :
    (2 : Nat) ≤ (3 : Nat) ∧
      (0 < (3 : Nat) →
        (6667 / 100 : Rat) = round2 (100 * ((2 : Nat) : Rat) / ((3 : Nat) : Rat))) :=
  C4_expert_analysis_bounds (some mockRecords)
    { total_experts := 3, experts_under_100_projects := 2,
      percentage := 6667 / 100, avg_earnings_under_100 := some 750,
      avg_earnings_all_experts := some (2500 / 3) }
    (by
      simp only [get_expert_analysis, mockRecords]
      simp +decide [List.filter_cons, List.filter_nil, seriesMean]
      norm_num [round2, roundHalfEven])

/-- C5: `get_payment_method_analysis` partitions the loaded table — the
per-group `total_freelancers` counts sum to the total record count. -/
theorem C5_payment_method_partition (rs : List Record) :
    ((get_payment_method_analysis (some rs)).map
      (fun kv => kv.2.total_freelancers)).sum = rs.length := by
  simp only [get_payment_method_analysis, List.map_map]
  have h1 : ∀ k, (rs.filter fun r => r.paymentMethod = k).length
      = (rs.map (·.paymentMethod)).count k :=
    filter_length_eq_count rs (·.paymentMethod)
  simp only [Function.comp_def]
  simp only [h1, groupKeys]
  rw [(((rs.map (·.paymentMethod)).dedup).perm_insertionSort (· ≤ ·)).map
        (fun k => (rs.map (·.paymentMethod)).count k) |>.sum_eq]
  rw [List.sum_map_count_dedup_eq_length, List.length_map]

/-- C6: whenever the analyzer operation behind the `"expert"` label raises,
`FreelancerAnalysisChain._get_analysis_data` catches the exception and
returns the `{"error": ...}` payload with a human-readable message instead
of propagating it (in the embedding, where records always carry the full
schema, the expert operation's division is the fallible call covered by the
dispatcher's `try/except`; `get_analysis_data` is total, so no exception
ever reaches its caller). -/
theorem C6_dispatcher_catches_analyzer_error (df : Option (List Record))
    (question : String) (e : PyErr)
    (h : get_expert_analysis df = .error e) :
    get_analysis_data df "expert" question =
      .errorPayload ("Ошибка при анализе данных: " ++ e.message) := by
  simp +decide [get_analysis_data, h]

/-- C6 (witness): on a loaded zero-record table, the expert analysis raises
division-by-zero and the dispatcher converts it to the error payload. -/
theorem C6_dispatcher_catches_analyzer_error_witness :
    get_analysis_data (some ([] : List Record)) "expert" "q" =
      .errorPayload ("Ошибка при анализе данных: " ++ PyErr.message .zeroDivision) :=
  C6_dispatcher_catches_analyzer_error (some []) "q" PyErr.zeroDivision rfl

/-- C7: any label outside the five recognized categories is routed to the
fallback payload carrying the fixed descriptive `message` and the general
dataset info as `general_stats`, and `get_analysis_data` is total (never
raises). -/
theorem C7_unrecognized_label_fallback (df : Option (List Record))
    (label question : String)
    (h1 : label ≠ "payment_method") (h2 : label ≠ "region")
    (h3 : label ≠ "expert") (h4 : label ≠ "crypto_comparison")
    (h5 : label ≠ "general_info") :
    get_analysis_data df label question =
      .fallback "Для данного типа вопроса требуется дополнительный анализ"
        (get_data_info df) := by
  simp [get_analysis_data, h1, h2, h3, h4, h5]

/-- C7 (witness): the label "unknown" yields the fallback payload on the
test table. -/
theorem C7_unrecognized_label_fallback_witness :
    get_analysis_data (some mockRecords) "unknown" "q" =
      .fallback "Для данного типа вопроса требуется дополнительный анализ"
        (get_data_info (some mockRecords)) :=
  C7_unrecognized_label_fallback (some mockRecords) "unknown" "q"
    (by decide) (by decide) (by decide) (by decide) (by decide)

/-- C8: `FreelancerCSVLoader.load` on a path that does not resolve to an
existing file fails with the distinct `DataFileNotFound` kind (never any
other error kind), and on an existing well-formed file (one `pd.read_csv`
parses) it succeeds, so no `DataFileNotFound` is raised. -/
theorem C8_load_error_kinds (fs : FileSystem) (path : String) :
    (fs.pathExists path = false →
      FreelancerCSVLoader.load fs path =
        .error (.dataFileNotFound ("Файл не найден: " ++ path))) ∧
    (∀ rows, fs.pathExists path = true → fs.readCSV path = .ok rows →
      FreelancerCSVLoader.load fs path = .ok rows) := by
  constructor
  · intro h
    simp [FreelancerCSVLoader.load, h]
  · intro rows h1 h2
    simp [FreelancerCSVLoader.load, h1, h2]

/-- C8 (witness): a filesystem without the file gives `DataFileNotFound`; a
filesystem with a well-formed file loads its rows. -/
theorem C8_load_error_kinds_witness :
    FreelancerCSVLoader.load
        { pathExists := fun _ => false, readCSV := fun _ => .error "io failure" }
        "not_exists.csv" =
      .error (.dataFileNotFound ("Файл не найден: " ++ "not_exists.csv")) ∧
    FreelancerCSVLoader.load
        { pathExists := fun _ => true, readCSV := fun _ => .ok mockRecords }
        "data.csv" = .ok mockRecords :=
  ⟨(C8_load_error_kinds _ _).1 rfl,
   (C8_load_error_kinds _ _).2 mockRecords rfl rfl⟩

/-- C9: serializing any Analysis Result with the `NpEncoder` always
succeeds and normalizes the library-specific wrapper types — the encoder's
output coincides with the stock JSON encoder applied to the wrapper-free
normal form of the payload, which is always plainly serializable (no numpy
integer, float, boolean or array survives). -/
theorem C9_serialization_normalizes (d : AnalysisData) :
    isPlain (stripNp (analysisDataToPyObj d)) = true ∧
    serializeStd (stripNp (analysisDataToPyObj d)) =
      some (serializeNp (analysisDataToPyObj d)) :=
  ⟨isPlain_stripNp _, serializeStd_stripNp _⟩

/-- C10: on any non-empty loaded table with no "Expert" record,
`get_expert_analysis` raises `ZeroDivisionError` (the percentage divides by
the zero expert count), and the error propagates out of the analyzer. -/
theorem C10_zero_experts_raises (rs : List Record) (hne : rs ≠ [])
    (hnoexp : ∀ r ∈ rs, r.experienceLevel ≠ "Expert") :
    get_expert_analysis (some rs) = .error .zeroDivision := by
  have hfilter : rs.filter (fun r => r.experienceLevel = "Expert") = [] := by
    rw [List.filter_eq_nil_iff]
    intro r hr
    simpa using hnoexp r hr
  simp [get_expert_analysis, hfilter]

/-- C10 (witness): a one-row table whose only record is a "Beginner". -/
theorem C10_zero_experts_raises_witness :
    get_expert_analysis (some [beginnerRecord]) = .error .zeroDivision :=
  C10_zero_experts_raises [beginnerRecord] (by decide) (by decide)
